import Mathlib

/-!
Shallow embedding of the sony-data-eng-demo repository.

Sources embedded:
- src/incremental_load.py : synthetic-record generators (generate_fan_interaction,
  generate_box_office), the batch loader (load_batch) and the driver (main).
- src/streamlit_app/app.py and src/streamlit_app/app_sis.py : the data-quality
  summary computation (tab2) and the task-status try/except path (tab3).

Modelling conventions:
- Randomness is made explicit: every call to random.choice / random.randint /
  random.uniform / uuid.uuid4 consumes one field of a draw structure supplied as
  an argument, so each generator is a pure function of (batch number, clock, draws).
- random.choice over a list is modelled by indexing with the draw modulo the list
  length (uniform support over the list); random.randint (a, b) by a + draw % (b - a + 1),
  which has exactly the inclusive range [a, b] as image.
- datetime.now () is an explicit clock parameter, an integer count of seconds; a
  timedelta of h hours is 3600 * h seconds and of d days is 86400 * d seconds.
  The strftime renderings of report_date and event_timestamp are abstracted to the
  underlying instant (the record fields hold the instant that the Python code formats).
- Python floats are modelled by exact rationals, and Python's round (x, 2)
  (banker's rounding, round half to even) by an exact round-half-to-even on ℚ;
  binary floating-point representation error is abstracted away.
- Database effects (cursor.execute, time.sleep) are modelled as traces: load_batch
  and main produce the ordered list of operations they issue.
-/

/-- Helper for `TITLE_IDS` (incremental_load.py line 9):
`[f"SPE{str(i).zfill(3)}" for i in range(1, 16)]`. `zfill` pads with leading zeros. -/
def zfill (w : Nat) (s : String) : String :=
  String.mk (List.replicate (w - s.length) '0') ++ s

/-- incremental_load.py line 9. -/
def TITLE_IDS : List String :=
  (List.range 15).map (fun i => "SPE" ++ zfill 3 (toString (i + 1)))

/-- incremental_load.py line 10. -/
def REGIONS : List String := ["North America", "Europe", "Asia Pacific", "Latin America"]

/-- The `COUNTRIES` dict from incremental_load.py lines 11-12, as a function; the Python
dict raises KeyError on a missing region, modelled by the empty list (the code only
ever indexes with a region drawn from REGIONS). -/
def COUNTRIES : String → List String
  | "North America" => ["USA", "CAN", "MEX"]
  | "Europe" => ["GBR", "DEU", "FRA", "ESP"]
  | "Asia Pacific" => ["JPN", "AUS", "KOR", "IND"]
  | "Latin America" => ["BRA", "ARG", "COL"]
  | _ => []

/-- incremental_load.py line 13. -/
def DEVICES : List String := ["iOS", "Android", "Web", "SmartTV", "PlayStation", "Xbox"]

/-- incremental_load.py line 14. -/
def EVENT_TYPES : List String := ["STREAM", "BROWSE", "PURCHASE", "REVIEW", "SHARE", "WISHLIST"]

/-- incremental_load.py line 15. -/
def ACCOUNT_TYPES : List String := ["VERIFIED_LINKED", "GUEST"]

/-- incremental_load.py lines 16-17. -/
def FIRST_NAMES : List String :=
  ["James", "Emma", "Liam", "Olivia", "Noah", "Ava", "Oliver", "Sophia", "Elijah", "Isabella",
   "Lucas", "Mia", "Mason", "Charlotte", "Ethan", "Amelia", "Aiden", "Harper", "Logan", "Evelyn"]

/-- incremental_load.py line 18. -/
def LAST_NAMES : List String :=
  ["Smith", "Johnson", "Williams", "Brown", "Jones", "Garcia", "Miller", "Davis", "Martinez",
   "Wilson"]

/-- incremental_load.py lines 19-20: (name, id) pairs. -/
def THEATERS : List (String × String) :=
  [("AMC Downtown", "THR-100"), ("Regal Mall Plaza", "THR-101"), ("Cinemark Central", "THR-102"),
   ("Vue Cinema", "THR-103"), ("Odeon Luxe", "THR-104"), ("TOHO Cinemas", "THR-105")]

/-- Model of `random.choice (l)`: the draw `i` selects index `i % l.length`, so the
image over all draws is exactly the members of `l`. The default `d` is unreachable
for the nonempty lists the code uses. -/
def randChoice {α : Type} (d : α) (l : List α) (i : Nat) : α :=
  l.getD (i % l.length) d

/-- Model of `random.randint (a, b)` (inclusive on both ends): image over all draws
is exactly `[a, b]`. -/
def randInt (a b i : Nat) : Nat :=
  a + i % (b + 1 - a)

/-- Round a rational to the nearest integer, ties to even: the semantics of Python 3
`round` on an exact value. -/
def halfEven (q : ℚ) : ℤ :=
  if q - ⌊q⌋ < 1 / 2 then ⌊q⌋
  else if 1 / 2 < q - ⌊q⌋ then ⌊q⌋ + 1
  else if ⌊q⌋ % 2 = 0 then ⌊q⌋ else ⌊q⌋ + 1

/-- Model of Python `round (x, 2)` over exact rationals. -/
def round2 (q : ℚ) : ℚ :=
  (halfEven (q * 100) : ℚ) / 100

/-- Model of `str (uuid.uuid4 ())`: render a 128-bit draw as the canonical
8-4-4-4-12 lowercase-hex string. -/
def hexChar (n : Nat) : Char :=
  "0123456789abcdef".toList.getD (n % 16) '0'

/-- Fixed-width lowercase-hex rendering (most significant digit first). -/
def hexStr (w n : Nat) : String :=
  String.mk ((List.range w).map (fun i => hexChar (n / 16 ^ (w - 1 - i))))

/-- The canonical uuid4 string of a 128-bit draw. -/
def uuid4 (n : Nat) : String :=
  hexStr 8 (n / 2 ^ 96) ++ "-" ++ hexStr 4 (n / 2 ^ 80) ++ "-" ++ hexStr 4 (n / 2 ^ 64) ++
    "-" ++ hexStr 4 (n / 2 ^ 48) ++ "-" ++ hexStr 12 n

/-- One record's worth of random draws consumed by `generate_fan_interaction`,
in source order (incremental_load.py lines 22-43). -/
structure FanDraws where
  regionD : Nat
  countryD : Nat
  acctD : Nat
  uuidFan : Nat
  uuidInteraction : Nat
  uuidSession : Nat
  firstD : Nat
  lastD : Nat
  ip1 : Nat
  ip2 : Nat
  ip3 : Nat
  ip4 : Nat
  eventD : Nat
  hoursD : Nat
  titleD : Nat
  deviceD : Nat

/-- The dict returned by `generate_fan_interaction` (incremental_load.py lines 28-43).
`email`, `first_name`, `last_name` are `None`-able, hence `Option`; `event_timestamp`
holds the instant `datetime.now () - timedelta (hours = h)` that line 40 formats. -/
structure FanRecord where
  interaction_id : String
  fan_id : String
  session_id : String
  account_type : String
  email : Option String
  first_name : Option String
  last_name : Option String
  ip_address : String
  region : String
  country_code : String
  event_type : String
  event_timestamp : Int
  title_id : String
  device_type : String

/-- Function `generate_fan_interaction (batch_num)` from incremental_load.py lines 22-43,
as a pure function of the batch number, the clock `now` (seconds) and the draws. -/
def generate_fan_interaction (batch_num : Nat) (now : Int) (d : FanDraws) : FanRecord :=
  let region := randChoice "" REGIONS d.regionD
  let country := randChoice "" (COUNTRIES region) d.countryD
  let account_type := randChoice "" ACCOUNT_TYPES d.acctD
  let fan_id := "FAN-BATCH" ++ toString batch_num ++ "-" ++ (uuid4 d.uuidFan).take 8
  { interaction_id := uuid4 d.uuidInteraction
    fan_id := fan_id
    session_id := uuid4 d.uuidSession
    account_type := account_type
    email :=
      if account_type = "VERIFIED_LINKED" then some (fan_id.toLower ++ "@example.com") else none
    first_name :=
      if account_type = "VERIFIED_LINKED" then some (randChoice "" FIRST_NAMES d.firstD) else none
    last_name :=
      if account_type = "VERIFIED_LINKED" then some (randChoice "" LAST_NAMES d.lastD) else none
    ip_address :=
      toString (randInt 1 255 d.ip1) ++ "." ++ toString (randInt 1 255 d.ip2) ++ "." ++
        toString (randInt 1 255 d.ip3) ++ "." ++ toString (randInt 1 255 d.ip4)
    region := region
    country_code := country
    event_type := randChoice "" EVENT_TYPES d.eventD
    event_timestamp := now - 3600 * (randInt 0 48 d.hoursD : Int)
    title_id := randChoice "" TITLE_IDS d.titleD
    device_type := randChoice "" DEVICES d.deviceD }

/-- The `currencies` dict literal of incremental_load.py lines 52-55, as the
association list in source order: country code ↦ (currency, exchange_rate_usd). -/
def currencyTable : List (String × String × ℚ) :=
  [("USA", "USD", 1.0), ("CAN", "CAD", 0.74), ("MEX", "MXN", 0.058),
   ("GBR", "GBP", 1.27), ("DEU", "EUR", 1.08), ("FRA", "EUR", 1.08), ("ESP", "EUR", 1.08),
   ("JPN", "JPY", 0.0067), ("AUS", "AUD", 0.65), ("KOR", "KRW", 0.00075), ("IND", "INR", 0.012),
   ("BRA", "BRL", 0.20), ("ARG", "ARS", 0.0012), ("COL", "COP", 0.00025)]

/-- Dict membership: `currencies [country]` when present. -/
def currencies (c : String) : Option (String × ℚ) :=
  currencyTable.lookup c

/-- Expression `currencies.get (country, ("USD", 1.0))` from incremental_load.py line 57. -/
def currencyLookup (c : String) : String × ℚ :=
  (currencies c).getD ("USD", 1.0)

/-- One record's worth of random draws consumed by `generate_box_office`, in source
order (incremental_load.py lines 45-75). `price` is the value of
`random.uniform (8, 18)`, an exact rational standing for the drawn float. -/
structure BoxDraws where
  regionD : Nat
  countryD : Nat
  theaterD : Nat
  ticketsD : Nat
  price : ℚ
  uuidRecord : Nat
  titleD : Nat
  reportDaysD : Nat
  screenD : Nat
  showtimeD : Nat

/-- The dict returned by `generate_box_office` (incremental_load.py lines 60-75).
`report_date` holds the instant `datetime.now () - timedelta (days = d)` that
line 67 formats as a date. -/
structure BoxRecord where
  record_id : String
  title_id : String
  theater_id : String
  theater_name : String
  theater_region : String
  theater_country : String
  report_date : Int
  tickets_sold : Nat
  gross_revenue_local : ℚ
  local_currency : String
  exchange_rate_usd : ℚ
  gross_revenue_usd : ℚ
  screen_count : Nat
  showtime_count : Nat

/-- Function `generate_box_office (batch_num)` from incremental_load.py lines 45-75, as a
pure function of the batch number, the clock `now` (seconds) and the draws.
Note line 72: `gross_revenue_usd = round (gross_local * rate, 2)` uses the
UNROUNDED `gross_local`, while line 69 stores the rounded one. -/
def generate_box_office (batch_num : Nat) (now : Int) (d : BoxDraws) : BoxRecord :=
  let region := randChoice "" REGIONS d.regionD
  let country := randChoice "" (COUNTRIES region) d.countryD
  let theater := randChoice ("", "") THEATERS d.theaterD
  let tickets := randInt 50 500 d.ticketsD
  let price := d.price
  let cr := currencyLookup country
  let gross_local := (tickets : ℚ) * price
  { record_id := uuid4 d.uuidRecord
    title_id := randChoice "" TITLE_IDS d.titleD
    theater_id := theater.2 ++ "-B" ++ toString batch_num
    theater_name := theater.1
    theater_region := region
    theater_country := country
    report_date := now - 86400 * (randInt 0 7 d.reportDaysD : Int)
    tickets_sold := tickets
    gross_revenue_local := round2 gross_local
    local_currency := cr.1
    exchange_rate_usd := cr.2
    gross_revenue_usd := round2 (gross_local * cr.2)
    screen_count := randInt 1 10 d.screenD
    showtime_count := randInt 3 15 d.showtimeD }

/-- JSON values, the target of `json.dumps` on the generated dicts. -/
inductive Json where
  | null : Json
  | str (s : String) : Json
  | num (q : ℚ) : Json
  | int (n : Int) : Json
  | obj (fields : List (String × Json)) : Json

/-- Optional string fields serialize to `null` or a string. -/
def optStr : Option String → Json
  | some s => Json.str s
  | none => Json.null

/-- Serialization `json.dumps (record)` for a fan-interaction dict, field order as in the source. -/
def fanToJson (r : FanRecord) : Json :=
  Json.obj
    [("interaction_id", Json.str r.interaction_id),
     ("fan_id", Json.str r.fan_id),
     ("session_id", Json.str r.session_id),
     ("account_type", Json.str r.account_type),
     ("email", optStr r.email),
     ("first_name", optStr r.first_name),
     ("last_name", optStr r.last_name),
     ("ip_address", Json.str r.ip_address),
     ("region", Json.str r.region),
     ("country_code", Json.str r.country_code),
     ("event_type", Json.str r.event_type),
     ("event_timestamp", Json.str (toString r.event_timestamp)),
     ("title_id", Json.str r.title_id),
     ("device_type", Json.str r.device_type)]

/-- Serialization `json.dumps (record)` for a box-office dict, field order as in the source. -/
def boxToJson (r : BoxRecord) : Json :=
  Json.obj
    [("record_id", Json.str r.record_id),
     ("title_id", Json.str r.title_id),
     ("theater_id", Json.str r.theater_id),
     ("theater_name", Json.str r.theater_name),
     ("theater_region", Json.str r.theater_region),
     ("theater_country", Json.str r.theater_country),
     ("report_date", Json.str (toString r.report_date)),
     ("tickets_sold", Json.int (r.tickets_sold : Int)),
     ("gross_revenue_local", Json.num r.gross_revenue_local),
     ("local_currency", Json.str r.local_currency),
     ("exchange_rate_usd", Json.num r.exchange_rate_usd),
     ("gross_revenue_usd", Json.num r.gross_revenue_usd),
     ("screen_count", Json.int (r.screen_count : Int)),
     ("showtime_count", Json.int (r.showtime_count : Int))]

/-- The statements `load_batch` issues through the cursor, in order
(incremental_load.py lines 77-129). -/
inductive SqlOp where
  | insertFan (payload : Json) (source_file : String) : SqlOp
  | insertBox (payload : Json) (source_file : String) : SqlOp
  | refreshDT (name : String) : SqlOp
  | countQuery (table : String) : SqlOp

/-- The `refresh_order` list from incremental_load.py lines 103-113. -/
def refresh_order : List String :=
  ["SONY_DE.SILVER.DT_STG_FANS_UNIFIED",
   "SONY_DE.SILVER.DT_STG_BOX_OFFICE_DEDUP",
   "SONY_DE.SILVER.DT_INT_FANS_ENRICHED",
   "SONY_DE.SILVER.DT_INT_DAILY_PERFORMANCE",
   "SONY_DE.GOLD.DT_DIM_FANS",
   "SONY_DE.GOLD.DT_DIM_TITLES",
   "SONY_DE.GOLD.DT_FACT_DAILY_PERFORMANCE",
   "SONY_DE.PLATINUM.AGG_FAN_LIFETIME_VALUE",
   "SONY_DE.PLATINUM.AGG_FRANCHISE_PERFORMANCE"]

/-- Function `load_batch (conn, batch_num, fan_count, box_office_count)` from
incremental_load.py lines 77-129, as the ordered trace of statements issued:
one parameterized insert per generated fan record (lines 84-89), one per
box-office record (lines 91-96), one `ALTER DYNAMIC TABLE ... REFRESH` per
entry of `refresh_order` (lines 115-119), then the two COUNT queries
(lines 121-124). `fanDraws i` / `boxDraws i` are the draws consumed by the
i-th generated record. -/
def load_batch (batch_num fan_count box_office_count : Nat) (now : Int)
    (fanDraws : Nat → FanDraws) (boxDraws : Nat → BoxDraws) : List SqlOp :=
  ((List.range fan_count).map (fun i =>
      SqlOp.insertFan (fanToJson (generate_fan_interaction batch_num now (fanDraws i)))
        ("batch_" ++ toString batch_num ++ "_fans.json"))) ++
  ((List.range box_office_count).map (fun i =>
      SqlOp.insertBox (boxToJson (generate_box_office batch_num now (boxDraws i)))
        ("batch_" ++ toString batch_num ++ "_box_office.json"))) ++
  (refresh_order.map SqlOp.refreshDT) ++
  [SqlOp.countQuery "SONY_DE.GOLD.DT_DIM_FANS",
   SqlOp.countQuery "SONY_DE.GOLD.DT_FACT_DAILY_PERFORMANCE"]

/-- Classifier: is the operation a dynamic-table refresh? -/
def SqlOp.isRefresh : SqlOp → Bool
  | .refreshDT _ => true
  | _ => false

/-- Classifier: is the operation one of the row-count queries? -/
def SqlOp.isCount : SqlOp → Bool
  | .countQuery _ => true
  | _ => false

/-- Classifier: is the operation an insert? -/
def SqlOp.isInsert : SqlOp → Bool
  | .insertFan _ _ => true
  | .insertBox _ _ => true
  | _ => false

/-- Classifier: fan-interaction insert? -/
def SqlOp.isInsertFan : SqlOp → Bool
  | .insertFan _ _ => true
  | _ => false

/-- Classifier: box-office insert? -/
def SqlOp.isInsertBox : SqlOp → Bool
  | .insertBox _ _ => true
  | _ => false

/-- The JSON payload of an insert, when the operation is one. -/
def SqlOp.payload : SqlOp → Option Json
  | .insertFan j _ => some j
  | .insertBox j _ => some j
  | _ => none

/-- The top-level actions of the driver `main` (incremental_load.py lines 131-156). -/
inductive DriverOp where
  | callLoadBatch (batch_num fan_count box_office_count : Nat) : DriverOp
  | sleep (seconds : Nat) : DriverOp
  | governanceQuery (sql : String) : DriverOp

/-- Function `main ()` from incremental_load.py lines 131-156, as its ordered trace of
top-level actions: `for batch in range (1, 11)` call load_batch with the fixed
sizes, sleep 3 seconds when `batch < 10` (lines 139-144), then the final
governance query (line 151). -/
def main_trace : List DriverOp :=
  ((List.range' 1 10).map (fun batch =>
      [DriverOp.callLoadBatch batch 100 50] ++
        (if batch < 10 then [DriverOp.sleep 3] else []))).flatten ++
  [DriverOp.governanceQuery "SELECT * FROM SONY_DE.GOVERNANCE.V_LAYER_ROW_COUNTS ORDER BY LAYER"]

/-- A row of `SONY_DE.GOVERNANCE.V_DATA_QUALITY_DASHBOARD` as the dashboards
consume it; only the columns the code touches are kept, `VIOLATION_COUNT` as an
integer. -/
structure DqRow where
  table_name : String
  metric : String
  description : String
  violation_count : Int
  measured_at : Int

/-- The tab2 summary of src/streamlit_app/app.py lines 75-77:
`total_checks = len (dq_results)`,
`passing = len (dq_results [dq_results ['VIOLATION_COUNT'] == 0])`,
`failing = total_checks - passing`; result is (total_checks, passing, failing). -/
def dq_summary_app (dq_results : List DqRow) : Nat × Nat × Nat :=
  let total_checks := dq_results.length
  let passing := (dq_results.filter (fun r => r.violation_count == 0)).length
  let failing := total_checks - passing
  (total_checks, passing, failing)

/-- The tab2 summary of src/streamlit_app/app_sis.py lines 63-65, transcribed
from that file (the code is textually the same computation as in app.py). -/
def dq_summary_app_sis (dq_results : List DqRow) : Nat × Nat × Nat :=
  let total_checks := dq_results.length
  let passing := (dq_results.filter (fun r => r.violation_count == 0)).length
  let failing := total_checks - passing
  (total_checks, passing, failing)

/-- A row of the TASK_HISTORY result as app.py selects it (lines 134-147). -/
structure TaskHistRow where
  name : String
  state : String
  scheduled_time : Int
  completed_time : Int
  error_code : String

/-- A row of the `SHOW TASKS` result; only the `state` column is read (line 157). -/
structure ShowTaskRow where
  state : String

/-- The observable steps of app.py's tab3 task-status column (lines 132-160). -/
inductive TaskPanelStep where
  | runTaskHistoryQuery : TaskPanelStep
  | showTaskHistoryTable (rows : List TaskHistRow) : TaskPanelStep
  | showNoRecentInfo : TaskPanelStep
  | runShowTasksQuery : TaskPanelStep
  | showTaskStateMetric (state : String) : TaskPanelStep
  | showTaskNotFoundWarning : TaskPanelStep

/-- The try/except task-status path of src/streamlit_app/app.py lines 133-160:
the TASK_HISTORY query is attempted (its outcome is `hist`: rows, or an
exception message); on success the rows are displayed (or an info message when
empty) and nothing else runs; on any exception the `SHOW TASKS` query runs and
its first row's state is displayed as a metric (or a warning when it returns
no rows). `show_tasks` is the result the fallback query would return. -/
def task_status_panel (hist : Except String (List TaskHistRow))
    (show_tasks : List ShowTaskRow) : List TaskPanelStep :=
  match hist with
  | .ok rows =>
      if rows.isEmpty then [TaskPanelStep.runTaskHistoryQuery, TaskPanelStep.showNoRecentInfo]
      else [TaskPanelStep.runTaskHistoryQuery, TaskPanelStep.showTaskHistoryTable rows]
  | .error _ =>
      [TaskPanelStep.runTaskHistoryQuery, TaskPanelStep.runShowTasksQuery] ++
        (match show_tasks with
         | [] => [TaskPanelStep.showTaskNotFoundWarning]
         | r :: _ => [TaskPanelStep.showTaskStateMetric r.state])

/-! Section: Helper lemmas -/

/-- An in-range `getD` hits a member of the list. -/
lemma getD_mem_of_lt {α : Type} (l : List α) (d : α) (i : Nat) (h : i < l.length) :
    l.getD i d ∈ l := by
  induction l generalizing i with
  | nil => simp at h
  | cons a t ih =>
    cases i with
    | zero => simp
    | succ j =>
      simp only [List.getD_cons_succ, List.mem_cons]
      exact Or.inr (ih j (by simpa using h))

/-- A drawn choice always lies in the (nonempty) list it was drawn from. -/
lemma randChoice_mem {α : Type} (d : α) (l : List α) (h : l ≠ []) (i : Nat) :
    randChoice d l i ∈ l := by
  unfold randChoice
  exact getD_mem_of_lt l d _ (Nat.mod_lt _ (List.length_pos.mpr h))

/-- The drawn integer never exceeds the upper bound. -/
lemma randInt_le (a b i : Nat) (h : a ≤ b) : randInt a b i ≤ b := by
  unfold randInt
  have hm : i % (b + 1 - a) < b + 1 - a := Nat.mod_lt _ (by omega)
  omega

/-- The drawn integer never undercuts the lower bound. -/
lemma le_randInt (a b i : Nat) : a ≤ randInt a b i := by
  unfold randInt
  omega

/-- String append concatenates the underlying character lists. -/
lemma string_data_append (s t : String) : (s ++ t).data = s.data ++ t.data := rfl

/-- A uuid4 rendering is 36 characters long. -/
lemma uuid4_data_length (n : Nat) : (uuid4 n).data.length = 36 := by
  simp [uuid4, hexStr, string_data_append]

/-- A uuid4 rendering is never the empty string. -/
lemma uuid4_ne_empty (n : Nat) : uuid4 n ≠ "" := by
  intro h
  have h2 := congrArg (fun s => s.data.length) h
  simp only [] at h2
  rw [uuid4_data_length] at h2
  simp at h2

/-! Section: C1 -/

/-- Concrete draws exhibiting the C1 discrepancy: tickets = 50, unit price
8.00042 (drawn in [8, 18]), country "CAN" with rate 0.74. Local gross is
400.021; the code rounds 400.021 · 0.74 = 296.01554 to 296.02, while rounding
the already-rounded local gross gives round2 (400.02 · 0.74) =
round2 (296.0148) = 296.01. -/
def cexDraws : BoxDraws :=
  { regionD := 0, countryD := 1, theaterD := 0, ticketsD := 0, price := 400021/50000,
    uuidRecord := 0, titleD := 0, reportDaysD := 0, screenD := 0, showtimeD := 0 }

/-- C1 counterexample: for the record generated from `cexDraws` (batch 1,
clock 0), `gross_revenue_usd` is NOT `round (gross_revenue_local *
exchange_rate_usd, 2)`: the code rounds the unrounded product
`tickets * price * rate` instead, and at these draws the two differ
(296.02 vs 296.01). -/
theorem C1_counterexample :
    (generate_box_office 1 0 cexDraws).gross_revenue_usd ≠
      round2 ((generate_box_office 1 0 cexDraws).gross_revenue_local *
        (generate_box_office 1 0 cexDraws).exchange_rate_usd) := by
  have h1 : (generate_box_office 1 0 cexDraws).gross_revenue_usd
      = round2 (((50 : ℕ) : ℚ) * (400021/50000) * 0.74) := rfl
  have h2 : (generate_box_office 1 0 cexDraws).gross_revenue_local
      = round2 (((50 : ℕ) : ℚ) * (400021/50000)) := rfl
  have h3 : (generate_box_office 1 0 cexDraws).exchange_rate_usd = 0.74 := rfl
  have husd : round2 (((50 : ℕ) : ℚ) * (400021/50000) * 0.74) = 29602/100 := by
    unfold round2 halfEven
    have hx : (((50 : ℕ) : ℚ) * (400021/50000) * 0.74 * 100) = 29601554/1000 := by
      push_cast
      norm_num
    rw [hx]
    have hf : ⌊(29601554 : ℚ)/1000⌋ = 29601 := by
      rw [Int.floor_eq_iff]
      norm_num
    rw [hf]
    norm_num
  have hloc : round2 (((50 : ℕ) : ℚ) * (400021/50000)) = 40002/100 := by
    unfold round2 halfEven
    have hx : (((50 : ℕ) : ℚ) * (400021/50000) * 100) = 400021/10 := by
      push_cast
      norm_num
    rw [hx]
    have hf : ⌊(400021 : ℚ)/10⌋ = 40002 := by
      rw [Int.floor_eq_iff]
      norm_num
    rw [hf]
    norm_num
  have hclaim : round2 ((40002 : ℚ)/100 * 0.74) = 29601/100 := by
    unfold round2 halfEven
    have hx : ((40002 : ℚ)/100 * 0.74 * 100) = 2960148/100 := by norm_num
    rw [hx]
    have hf : ⌊(2960148 : ℚ)/100⌋ = 29601 := by
      rw [Int.floor_eq_iff]
      norm_num
    rw [hf]
    norm_num
  rw [h1, h2, h3, husd, hloc, hclaim]
  norm_num

/-- C1 (amended): for every generated box-office record,
`gross_revenue_local = round (tickets_sold * unit_price, 2)` and
`gross_revenue_usd = round (tickets_sold * unit_price * exchange_rate_usd, 2)`,
i.e. the USD gross rounds the product of the UNROUNDED local gross with the
exchange rate (a single rounding of the triple product), not of the
already-rounded local gross. -/
theorem C1_amended (batch_num : Nat) (now : Int) (d : BoxDraws) :
    (generate_box_office batch_num now d).gross_revenue_local
        = round2 (((generate_box_office batch_num now d).tickets_sold : ℚ) * d.price) ∧
      (generate_box_office batch_num now d).gross_revenue_usd
        = round2 ((((generate_box_office batch_num now d).tickets_sold : ℚ) * d.price) *
            (generate_box_office batch_num now d).exchange_rate_usd) :=
  ⟨rfl, rfl⟩

/-! Section: C4 -/

/-- C4: every box-office `report_date` lies within the 7 days before the
generation instant (inclusive at both ends, never in the future), and every
fan `event_timestamp` lies within the 48 hours before it (same bounds). -/
theorem C4_timestamp_bounds (batch_num : Nat) (now : Int) (fd : FanDraws) (bd : BoxDraws) :
    (now - 7 * 86400 ≤ (generate_box_office batch_num now bd).report_date ∧
        (generate_box_office batch_num now bd).report_date ≤ now) ∧
      (now - 48 * 3600 ≤ (generate_fan_interaction batch_num now fd).event_timestamp ∧
        (generate_fan_interaction batch_num now fd).event_timestamp ≤ now) := by
  have h1 : (generate_box_office batch_num now bd).report_date
      = now - 86400 * (randInt 0 7 bd.reportDaysD : Int) := rfl
  have h2 : (generate_fan_interaction batch_num now fd).event_timestamp
      = now - 3600 * (randInt 0 48 fd.hoursD : Int) := rfl
  have hb1 : randInt 0 7 bd.reportDaysD ≤ 7 := randInt_le 0 7 _ (by omega)
  have hb2 : randInt 0 48 fd.hoursD ≤ 48 := randInt_le 0 48 _ (by omega)
  have hc1 : (randInt 0 7 bd.reportDaysD : Int) ≤ 7 := by exact_mod_cast hb1
  have hc2 : (randInt 0 48 fd.hoursD : Int) ≤ 48 := by exact_mod_cast hb2
  have hz1 : (0 : Int) ≤ (randInt 0 7 bd.reportDaysD : Int) := Int.ofNat_nonneg _
  have hz2 : (0 : Int) ≤ (randInt 0 48 fd.hoursD : Int) := Int.ofNat_nonneg _
  rw [h1, h2]
  constructor
  · constructor <;> nlinarith
  · constructor <;> nlinarith

/-! Section: C2 -/

/-- C2: in every generated fan record, email, first name and last name are all
populated exactly when the account type is "VERIFIED_LINKED", and all absent
(None) exactly when it is "GUEST". -/
theorem C2_personal_fields_iff_verified (batch_num : Nat) (now : Int) (d : FanDraws) :
    ((generate_fan_interaction batch_num now d).account_type = "VERIFIED_LINKED" ↔
        ((generate_fan_interaction batch_num now d).email.isSome = true ∧
          (generate_fan_interaction batch_num now d).first_name.isSome = true ∧
          (generate_fan_interaction batch_num now d).last_name.isSome = true)) ∧
      ((generate_fan_interaction batch_num now d).account_type = "GUEST" ↔
        ((generate_fan_interaction batch_num now d).email = none ∧
          (generate_fan_interaction batch_num now d).first_name = none ∧
          (generate_fan_interaction batch_num now d).last_name = none)) := by
  rcases Nat.mod_two_eq_zero_or_one d.acctD with h | h <;>
    simp [generate_fan_interaction, randChoice, ACCOUNT_TYPES, h]

/-! Section: C3 -/

/-- C3: the country-to-currency lookup returns the tabulated
(currency, exchange rate) pair for every country code listed in the table,
and the fixed default ("USD", 1.0) for every code not listed. -/
theorem C3_currency_lookup :
    (∀ e ∈ currencyTable, currencyLookup e.1 = e.2) ∧
      (∀ c : String, c ∉ currencyTable.map Prod.fst → currencyLookup c = ("USD", 1.0)) := by
  constructor
  · intro e he
    fin_cases he <;> rfl
  · intro c hc
    simp only [currencyTable, List.map, List.mem_cons, List.not_mem_nil, or_false,
      not_or] at hc
    obtain ⟨h1, h2, h3, h4, h5, h6, h7, h8, h9, h10, h11, h12, h13, h14⟩ := hc
    simp [currencyLookup, currencies, currencyTable, List.lookup,
      beq_eq_false_iff_ne.mpr h1, beq_eq_false_iff_ne.mpr h2, beq_eq_false_iff_ne.mpr h3,
      beq_eq_false_iff_ne.mpr h4, beq_eq_false_iff_ne.mpr h5, beq_eq_false_iff_ne.mpr h6,
      beq_eq_false_iff_ne.mpr h7, beq_eq_false_iff_ne.mpr h8, beq_eq_false_iff_ne.mpr h9,
      beq_eq_false_iff_ne.mpr h10, beq_eq_false_iff_ne.mpr h11, beq_eq_false_iff_ne.mpr h12,
      beq_eq_false_iff_ne.mpr h13, beq_eq_false_iff_ne.mpr h14]

/-- C3 witness: the lookup at a listed code ("JPN") and at an unlisted one
("ZZZ"), both obtained from `C3_currency_lookup`. -/
theorem C3_currency_lookup_witness :
    currencyLookup "JPN" = ("JPY", 0.0067) ∧ currencyLookup "ZZZ" = ("USD", 1.0) :=
  ⟨C3_currency_lookup.1 ("JPN", "JPY", 0.0067)
      (List.mem_cons_of_mem _ (List.mem_cons_of_mem _ (List.mem_cons_of_mem _
        (List.mem_cons_of_mem _ (List.mem_cons_of_mem _ (List.mem_cons_of_mem _
          (List.mem_cons_of_mem _ (List.mem_cons_self _ _)))))))),
    C3_currency_lookup.2 "ZZZ" (by decide)⟩

/-! Section: C10 -/

/-- The drawn region is always one of the four regions. -/
lemma region_drawn_mem (i : Nat) : randChoice "" REGIONS i ∈ REGIONS :=
  randChoice_mem _ _ (by decide) i

/-- The drawn country is always a member of the drawn region's country list. -/
lemma country_drawn_mem (i j : Nat) :
    randChoice "" (COUNTRIES (randChoice "" REGIONS i)) j ∈ COUNTRIES (randChoice "" REGIONS i) := by
  have hr := region_drawn_mem i
  revert hr
  generalize randChoice "" REGIONS i = region
  intro hr
  simp only [REGIONS, List.mem_cons, List.not_mem_nil, or_false] at hr
  rcases hr with h | h | h | h <;> subst h <;> exact randChoice_mem _ _ (by decide) j

/-- Every country of every region's list is a key of the currency table. -/
lemma countries_subset_currency_keys :
    ∀ region ∈ REGIONS, ∀ c ∈ COUNTRIES region, c ∈ currencyTable.map Prod.fst := by
  decide

/-- A key of the currency table has a `some` lookup. -/
lemma currency_key_isSome : ∀ c ∈ currencyTable.map Prod.fst, (currencies c).isSome = true := by
  decide

/-- C10: every country code the box-office generator can draw is a key of the
currency table, so the default fallback pair ("USD", 1.0) of the lookup is
never used inside `generate_box_office`. -/
theorem C10_no_currency_fallback (batch_num : Nat) (now : Int) (d : BoxDraws) :
    (REGIONS.all (fun region => (COUNTRIES region).all
        (fun c => (currencyTable.map Prod.fst).contains c)) = true) ∧
      (generate_box_office batch_num now d).theater_country ∈ currencyTable.map Prod.fst ∧
      (currencies (generate_box_office batch_num now d).theater_country).isSome = true := by
  refine ⟨by decide, ?_, ?_⟩
  · have hc : (generate_box_office batch_num now d).theater_country
        = randChoice "" (COUNTRIES (randChoice "" REGIONS d.regionD)) d.countryD := rfl
    rw [hc]
    exact countries_subset_currency_keys _ (region_drawn_mem d.regionD) _
      (country_drawn_mem d.regionD d.countryD)
  · have hc : (generate_box_office batch_num now d).theater_country
        = randChoice "" (COUNTRIES (randChoice "" REGIONS d.regionD)) d.countryD := rfl
    rw [hc]
    exact currency_key_isSome _ (countries_subset_currency_keys _ (region_drawn_mem d.regionD) _
      (country_drawn_mem d.regionD d.countryD))

/-! Section: C5 -/

/-- Filtering a map whose image never satisfies the predicate gives nil. -/
lemma filter_map_eq_nil {α β : Type} (p : β → Bool) (f : α → β) (l : List α)
    (h : ∀ a, p (f a) = false) : (l.map f).filter p = [] := by
  induction l with
  | nil => rfl
  | cons a t ih => simp [List.filter_cons, h, ih]

/-- Filtering a map whose image always satisfies the predicate keeps everything. -/
lemma filter_map_eq_self {α β : Type} (p : β → Bool) (f : α → β) (l : List α)
    (h : ∀ a, p (f a) = true) : (l.map f).filter p = l.map f := by
  induction l with
  | nil => rfl
  | cons a t ih => simp [List.filter_cons, h, ih]

/-- C5: in every invocation of `load_batch`, the dynamic-table refresh commands
issued are exactly the nine names of `refresh_order`, once each (the names are
distinct), in that fixed order; the trace is some inserts, then the nine
refreshes, then the two row-count queries, so the row counts are queried only
after all nine refreshes. -/
theorem C5_refresh_sequence (batch_num fan_count box_office_count : Nat) (now : Int)
    (fanDraws : Nat → FanDraws) (boxDraws : Nat → BoxDraws) :
    (load_batch batch_num fan_count box_office_count now fanDraws boxDraws).filter
        SqlOp.isRefresh = refresh_order.map SqlOp.refreshDT ∧
      refresh_order.length = 9 ∧
      refresh_order.Nodup ∧
      ∃ inserts, (∀ op ∈ inserts, SqlOp.isInsert op = true) ∧
        load_batch batch_num fan_count box_office_count now fanDraws boxDraws =
          inserts ++ refresh_order.map SqlOp.refreshDT ++
            [SqlOp.countQuery "SONY_DE.GOLD.DT_DIM_FANS",
             SqlOp.countQuery "SONY_DE.GOLD.DT_FACT_DAILY_PERFORMANCE"] := by
  have hfanR : ((List.range fan_count).map (fun i =>
      SqlOp.insertFan (fanToJson (generate_fan_interaction batch_num now (fanDraws i)))
        ("batch_" ++ toString batch_num ++ "_fans.json"))).filter SqlOp.isRefresh = [] :=
    filter_map_eq_nil _ _ _ (fun a => rfl)
  have hboxR : ((List.range box_office_count).map (fun i =>
      SqlOp.insertBox (boxToJson (generate_box_office batch_num now (boxDraws i)))
        ("batch_" ++ toString batch_num ++ "_box_office.json"))).filter SqlOp.isRefresh = [] :=
    filter_map_eq_nil _ _ _ (fun a => rfl)
  have hrefR : (refresh_order.map SqlOp.refreshDT).filter SqlOp.isRefresh
      = refresh_order.map SqlOp.refreshDT :=
    filter_map_eq_self _ _ _ (fun a => rfl)
  refine ⟨?_, rfl, by decide, ?_⟩
  · unfold load_batch
    rw [List.filter_append, List.filter_append, List.filter_append, hfanR, hboxR, hrefR]
    simp [SqlOp.isRefresh]
  · refine ⟨((List.range fan_count).map (fun i =>
        SqlOp.insertFan (fanToJson (generate_fan_interaction batch_num now (fanDraws i)))
          ("batch_" ++ toString batch_num ++ "_fans.json"))) ++
      ((List.range box_office_count).map (fun i =>
        SqlOp.insertBox (boxToJson (generate_box_office batch_num now (boxDraws i)))
          ("batch_" ++ toString batch_num ++ "_box_office.json"))), ?_, ?_⟩
    · intro op hop
      rcases List.mem_append.mp hop with h | h <;>
        · obtain ⟨i, _, rfl⟩ := List.mem_map.mp h
          rfl
    · unfold load_batch
      simp [List.append_assoc]

/-! Section: C6 -/

/-- C6: the driver runs exactly ten batches, batch numbers 1 through 10 in
order, each with fan_count = 100 and box_office_count = 50, sleeping 3 seconds
between consecutive batches but not after the tenth, and only then issues the
governance summary query. -/
theorem C6_driver_schedule :
    main_trace =
      [DriverOp.callLoadBatch 1 100 50, DriverOp.sleep 3,
       DriverOp.callLoadBatch 2 100 50, DriverOp.sleep 3,
       DriverOp.callLoadBatch 3 100 50, DriverOp.sleep 3,
       DriverOp.callLoadBatch 4 100 50, DriverOp.sleep 3,
       DriverOp.callLoadBatch 5 100 50, DriverOp.sleep 3,
       DriverOp.callLoadBatch 6 100 50, DriverOp.sleep 3,
       DriverOp.callLoadBatch 7 100 50, DriverOp.sleep 3,
       DriverOp.callLoadBatch 8 100 50, DriverOp.sleep 3,
       DriverOp.callLoadBatch 9 100 50, DriverOp.sleep 3,
       DriverOp.callLoadBatch 10 100 50,
       DriverOp.governanceQuery
         "SELECT * FROM SONY_DE.GOVERNANCE.V_LAYER_ROW_COUNTS ORDER BY LAYER"] := by
  rfl

/-! Section: C7 -/

/-- filterMap over a map that always produces `some` keeps the length. -/
lemma filterMap_map_length {α β γ : Type} (g : β → Option γ) (f : α → β) (l : List α)
    (h : ∀ a, ∃ c, g (f a) = some c) : ((l.map f).filterMap g).length = l.length := by
  induction l with
  | nil => rfl
  | cons a t ih =>
    obtain ⟨c, hc⟩ := h a
    rw [List.map_cons, List.filterMap_cons, hc]
    simp only [List.length_cons, ih]

/-- filterMap over a map that always produces `none` gives nil. -/
lemma filterMap_map_eq_nil {α β γ : Type} (g : β → Option γ) (f : α → β) (l : List α)
    (h : ∀ a, g (f a) = none) : (l.map f).filterMap g = [] := by
  induction l with
  | nil => rfl
  | cons a t ih => simp [List.filterMap_cons, h, ih]

/-- C7: one `load_batch` invocation with fan_count = 100 and
box_office_count = 50 issues exactly 150 inserts, each carrying a serialized
JSON payload — 100 fan-interaction inserts and 50 box-office inserts; every
generated fan record has a non-empty `interaction_id` and its region, country,
event type, title and device drawn from the fixed lookup tables, and every
generated box-office record has a non-empty `record_id` and its region,
country, title and theater drawn from the fixed tables. -/
theorem C7_batch_contents (batch_num : Nat) (now : Int)
    (fanDraws : Nat → FanDraws) (boxDraws : Nat → BoxDraws) :
    ((load_batch batch_num 100 50 now fanDraws boxDraws).filterMap SqlOp.payload).length
        = 150 ∧
      ((load_batch batch_num 100 50 now fanDraws boxDraws).filter SqlOp.isInsertFan).length
        = 100 ∧
      ((load_batch batch_num 100 50 now fanDraws boxDraws).filter SqlOp.isInsertBox).length
        = 50 ∧
      (∀ i : Nat,
        (generate_fan_interaction batch_num now (fanDraws i)).interaction_id ≠ "" ∧
        (generate_fan_interaction batch_num now (fanDraws i)).region ∈ REGIONS ∧
        (generate_fan_interaction batch_num now (fanDraws i)).country_code
          ∈ COUNTRIES (generate_fan_interaction batch_num now (fanDraws i)).region ∧
        (generate_fan_interaction batch_num now (fanDraws i)).event_type ∈ EVENT_TYPES ∧
        (generate_fan_interaction batch_num now (fanDraws i)).title_id ∈ TITLE_IDS ∧
        (generate_fan_interaction batch_num now (fanDraws i)).device_type ∈ DEVICES ∧
        (generate_fan_interaction batch_num now (fanDraws i)).account_type ∈ ACCOUNT_TYPES) ∧
      (∀ i : Nat,
        (generate_box_office batch_num now (boxDraws i)).record_id ≠ "" ∧
        (generate_box_office batch_num now (boxDraws i)).theater_region ∈ REGIONS ∧
        (generate_box_office batch_num now (boxDraws i)).theater_country
          ∈ COUNTRIES (generate_box_office batch_num now (boxDraws i)).theater_region ∧
        (generate_box_office batch_num now (boxDraws i)).title_id ∈ TITLE_IDS ∧
        (generate_box_office batch_num now (boxDraws i)).theater_name
          ∈ THEATERS.map Prod.fst) := by
  have hfanP : (((List.range 100).map (fun i =>
      SqlOp.insertFan (fanToJson (generate_fan_interaction batch_num now (fanDraws i)))
        ("batch_" ++ toString batch_num ++ "_fans.json"))).filterMap SqlOp.payload).length
      = (List.range 100).length :=
    filterMap_map_length _ _ _ (fun a => ⟨_, rfl⟩)
  have hboxP : (((List.range 50).map (fun i =>
      SqlOp.insertBox (boxToJson (generate_box_office batch_num now (boxDraws i)))
        ("batch_" ++ toString batch_num ++ "_box_office.json"))).filterMap SqlOp.payload).length
      = (List.range 50).length :=
    filterMap_map_length _ _ _ (fun a => ⟨_, rfl⟩)
  have hrefP : (refresh_order.map SqlOp.refreshDT).filterMap SqlOp.payload = [] :=
    filterMap_map_eq_nil _ _ _ (fun a => rfl)
  have hfanF : ((List.range 100).map (fun i =>
      SqlOp.insertFan (fanToJson (generate_fan_interaction batch_num now (fanDraws i)))
        ("batch_" ++ toString batch_num ++ "_fans.json"))).filter SqlOp.isInsertFan
      = (List.range 100).map (fun i =>
      SqlOp.insertFan (fanToJson (generate_fan_interaction batch_num now (fanDraws i)))
        ("batch_" ++ toString batch_num ++ "_fans.json")) :=
    filter_map_eq_self _ _ _ (fun a => rfl)
  have hboxNF : ((List.range 50).map (fun i =>
      SqlOp.insertBox (boxToJson (generate_box_office batch_num now (boxDraws i)))
        ("batch_" ++ toString batch_num ++ "_box_office.json"))).filter SqlOp.isInsertFan
      = [] :=
    filter_map_eq_nil _ _ _ (fun a => rfl)
  have hrefNF : (refresh_order.map SqlOp.refreshDT).filter SqlOp.isInsertFan = [] :=
    filter_map_eq_nil _ _ _ (fun a => rfl)
  have hfanNB : ((List.range 100).map (fun i =>
      SqlOp.insertFan (fanToJson (generate_fan_interaction batch_num now (fanDraws i)))
        ("batch_" ++ toString batch_num ++ "_fans.json"))).filter SqlOp.isInsertBox
      = [] :=
    filter_map_eq_nil _ _ _ (fun a => rfl)
  have hboxB : ((List.range 50).map (fun i =>
      SqlOp.insertBox (boxToJson (generate_box_office batch_num now (boxDraws i)))
        ("batch_" ++ toString batch_num ++ "_box_office.json"))).filter SqlOp.isInsertBox
      = (List.range 50).map (fun i =>
      SqlOp.insertBox (boxToJson (generate_box_office batch_num now (boxDraws i)))
        ("batch_" ++ toString batch_num ++ "_box_office.json")) :=
    filter_map_eq_self _ _ _ (fun a => rfl)
  have hrefNB : (refresh_order.map SqlOp.refreshDT).filter SqlOp.isInsertBox = [] :=
    filter_map_eq_nil _ _ _ (fun a => rfl)
  refine ⟨?_, ?_, ?_, ?_, ?_⟩
  · unfold load_batch
    rw [List.filterMap_append, List.filterMap_append, List.filterMap_append, hrefP]
    simp only [hfanP, hboxP, List.length_append, List.length_range, List.length_nil,
      List.filterMap_cons, List.filterMap_nil, SqlOp.payload]
  · unfold load_batch
    rw [List.filter_append, List.filter_append, List.filter_append, hfanF, hboxNF, hrefNF]
    simp [SqlOp.isInsertFan]
  · unfold load_batch
    rw [List.filter_append, List.filter_append, List.filter_append, hfanNB, hboxB, hrefNB]
    simp [SqlOp.isInsertBox]
  · intro i
    refine ⟨uuid4_ne_empty _, region_drawn_mem _, country_drawn_mem _ _,
      randChoice_mem _ _ (by decide) _, randChoice_mem _ _ (by decide) _,
      randChoice_mem _ _ (by decide) _, randChoice_mem _ _ (by decide) _⟩
  · intro i
    refine ⟨uuid4_ne_empty _, region_drawn_mem _, country_drawn_mem _ _,
      randChoice_mem _ _ (by decide) _, ?_⟩
    have ht : (generate_box_office batch_num now (boxDraws i)).theater_name
        = (randChoice ("", "") THEATERS (boxDraws i).theaterD).1 := rfl
    rw [ht]
    exact List.mem_map_of_mem Prod.fst (randChoice_mem _ _ (by decide) _)

/-! Section: C8 -/

/-- The lengths of a filter and its complement add up to the whole length. -/
lemma length_filter_add_length_filter_not {α : Type} (p : α → Bool) (l : List α) :
    (l.filter p).length + (l.filter (fun a => !(p a))).length = l.length := by
  induction l with
  | nil => rfl
  | cons a t ih =>
    cases h : p a <;> simp [List.filter_cons, h] <;> omega

/-- C8: in both dashboard variants the data-quality summary is (total, passing,
failing) with passing the number of result rows whose VIOLATION_COUNT is zero,
failing the number whose VIOLATION_COUNT is nonzero, passing + failing = total;
and the two variants compute the same function of the result rows. -/
theorem C8_dq_summary (dq_results : List DqRow) :
    (dq_summary_app dq_results).2.1
        = (dq_results.filter (fun r => r.violation_count == 0)).length ∧
      (dq_summary_app dq_results).2.2
        = (dq_results.filter (fun r => !(r.violation_count == 0))).length ∧
      (dq_summary_app dq_results).2.1 + (dq_summary_app dq_results).2.2
        = (dq_summary_app dq_results).1 ∧
      (dq_summary_app dq_results).1 = dq_results.length ∧
      dq_summary_app_sis dq_results = dq_summary_app dq_results := by
  have h := length_filter_add_length_filter_not (fun r => r.violation_count == 0) dq_results
  have hle : ((dq_results.filter (fun r => r.violation_count == 0)).length ≤
      dq_results.length) := List.length_filter_le _ _
  refine ⟨rfl, ?_, ?_, rfl, rfl⟩
  · show dq_results.length - (dq_results.filter (fun r => r.violation_count == 0)).length = _
    omega
  · show (dq_results.filter (fun r => r.violation_count == 0)).length +
        (dq_results.length - (dq_results.filter (fun r => r.violation_count == 0)).length) =
      dq_results.length
    omega

/-! Section: C9 -/

/-- C9: in the app.py task-status path, if the TASK_HISTORY query raises any
exception, the SHOW TASKS fallback query is executed and its result displayed
instead (the state of its first row, or a not-found warning), and the
TASK_HISTORY table is never displayed; if the TASK_HISTORY query succeeds, the
SHOW TASKS fallback is never executed. -/
theorem C9_task_status_fallback (hist : Except String (List TaskHistRow))
    (show_tasks : List ShowTaskRow) :
    ((∃ e, hist = Except.error e) →
        TaskPanelStep.runShowTasksQuery ∈ task_status_panel hist show_tasks ∧
          (∀ rows, TaskPanelStep.showTaskHistoryTable rows ∉ task_status_panel hist show_tasks) ∧
          (∀ r rest, show_tasks = r :: rest →
            TaskPanelStep.showTaskStateMetric r.state ∈ task_status_panel hist show_tasks)) ∧
      (∀ rows, hist = Except.ok rows →
        TaskPanelStep.runShowTasksQuery ∉ task_status_panel hist show_tasks) := by
  constructor
  · rintro ⟨e, rfl⟩
    refine ⟨?_, ?_, ?_⟩
    · simp [task_status_panel]
    · intro rows
      cases show_tasks <;> simp [task_status_panel]
    · rintro r rest rfl
      simp [task_status_panel]
  · rintro rows rfl
    by_cases h : rows.isEmpty <;> simp [task_status_panel, h]

/-- C9 witness: a failing TASK_HISTORY query (with a nonempty SHOW TASKS
result) does trigger the fallback, and a succeeding one does not, both
instances of `C9_task_status_fallback`. -/
theorem C9_task_status_fallback_witness :
    TaskPanelStep.runShowTasksQuery ∈
        task_status_panel (Except.error "connection reset") [{ state := "started" }] ∧
      TaskPanelStep.runShowTasksQuery ∉
        task_status_panel (Except.ok ([] : List TaskHistRow)) [{ state := "started" }] :=
  ⟨((C9_task_status_fallback (Except.error "connection reset")
        [{ state := "started" }]).1 ⟨"connection reset", rfl⟩).1,
    (C9_task_status_fallback (Except.ok ([] : List TaskHistRow))
        [{ state := "started" }]).2 [] rfl⟩
